import Mathlib

/-!
Shallow embedding of the coolboy Game Boy emulator core, translated from
src/emulator/cartridge.rs, src/emulator/memory.rs, src/emulator/mod.rs and
src/emulator/cpu/mod.rs.

Conventions used throughout:
* Machine integers (u8, u16, usize of the Rust source) are modelled as Nat;
  the i32 counters are modelled as Int.  Wrapping or masking is written
  explicitly where the source relies on it.
* Rust aborts (explicit aborting match arms, unreachable arms, and
  out-of-bounds array indexing) are modelled by Option: a function returns
  none exactly when the source aborts the process.
* Byte arrays are modelled as total functions Nat -> Nat, updated
  pointwise with upd.
-/

namespace Coolboy

/-- Pointwise update of a byte-array model. -/
def upd (f : Nat → Nat) (a v : Nat) : Nat → Nat :=
  fun x => if x = a then v else f x

/-- The tbit bit-test macro from src/main.rs: (v & (1 << b)) != 0. -/
def tbit (v b : Nat) : Bool := v &&& (1 <<< b) != 0

/-- The sbit bit-set macro from src/main.rs: v | (1 << b). -/
def sbit (v b : Nat) : Nat := v ||| (1 <<< b)

/-- The ubit bit-clear macro from src/main.rs on u8 operands:
v & !(1 << b), where the u8 complement is xor with 0xFF. -/
def ubit (v b : Nat) : Nat := v &&& ((1 <<< b) ^^^ 0xFF)

/-- The gbit bit-extract macro from src/main.rs: (v & (1 << b)) >> b. -/
def gbit (v b : Nat) : Nat := (v &&& (1 <<< b)) >>> b

/-- A Rust range a..b as the list of its elements (empty when b <= a,
exactly as a Rust Range iterator yields nothing then). -/
def rustRange (a b : Nat) : List Nat := (List.range (b - a)).map (a + ·)

/-! ## Cartridge (src/emulator/cartridge.rs) -/

/-- CARTRIDGE_SIZE constant from cartridge.rs (2 MiB). -/
def CARTRIDGE_SIZE : Nat := 0x200000

/-- The cartridge owns a fixed 2 MiB byte buffer. -/
structure Cartridge where
  data : Nat → Nat

/-- Cartridge::from_file with the file IO elided: the buffer is
zero-initialised and the image bytes are read into its front, so position i
holds image[i] when i is inside the image and 0 otherwise. -/
def Cartridge.fromImage (image : List Nat) : Cartridge :=
  ⟨fun i => image.getD i 0⟩

/-- Cartridge::read: the arm covering CARTRIDGE_SIZE.. aborts the process
(modelled as none); otherwise the fixed buffer is indexed. -/
def Cartridge.read (c : Cartridge) (address : Nat) : Option Nat :=
  if CARTRIDGE_SIZE ≤ address then none
  else some (c.data address)

/-! ## Memory (src/emulator/memory.rs) -/

/-- RBM_ADDRESS constant from memory.rs. -/
def RBM_ADDRESS : Nat := 0x147

/-- MEMORY_SIZE constant from memory.rs. -/
def MEMORY_SIZE : Nat := 0x10000

/-- ROM_BANK_SIZE constant from memory.rs. -/
def ROM_BANK_SIZE : Nat := 0x4000

/-- RAM_BANK_SIZE constant from memory.rs. -/
def RAM_BANK_SIZE : Nat := 0x2000

/-- MAX_RAMBANK constant from memory.rs. -/
def MAX_RAMBANK : Nat := 4

/-- The RomBankMode enum from memory.rs. -/
inductive RomBankMode where
  | No
  | MBC1
  | MBC2
deriving DecidableEq

/-- The Memory struct from memory.rs. -/
structure Memory where
  rom : Nat → Nat
  cart : Cartridge
  rom_bank_mode : RomBankMode
  current_rom_bank : Nat
  ram_banks : Nat → Nat
  current_ram_bank : Nat
  enable_ram : Bool
  enable_rom : Bool

/-- The register initialisation table written line by line by Memory::init. -/
def INIT_VALUES : List (Nat × Nat) :=
  [(0xFF05, 0x00), (0xFF06, 0x00), (0xFF07, 0x00), (0xFF10, 0x80),
   (0xFF11, 0xBF), (0xFF12, 0xF3), (0xFF14, 0xBF), (0xFF16, 0x3F),
   (0xFF17, 0x00), (0xFF19, 0xBF), (0xFF1A, 0x7F), (0xFF1B, 0xFF),
   (0xFF1C, 0x9F), (0xFF1E, 0xBF), (0xFF20, 0xFF), (0xFF21, 0x00),
   (0xFF22, 0x00), (0xFF23, 0xBF), (0xFF24, 0x77), (0xFF25, 0xF3),
   (0xFF26, 0xF1), (0xFF40, 0x91), (0xFF42, 0x00), (0xFF43, 0x00),
   (0xFF45, 0x00), (0xFF47, 0xFC), (0xFF48, 0xFF), (0xFF49, 0xFF),
   (0xFF4A, 0x00), (0xFF4B, 0x00), (0xFFFF, 0x00)]

/-- Memory::init: stores the fixed I/O register start-up values. -/
def Memory.init (m : Memory) : Memory :=
  { m with rom := INIT_VALUES.foldl (fun r p => upd r p.1 p.2) m.rom }

/-- Memory::from_file with the file IO elided: builds the memory map over an
already loaded cartridge.  The wildcard arm of the match on the byte at
0x147 aborts the process in the source (modelled as none); reading the
cartridge at 0x147 is in bounds and cannot abort.  Note current_rom_bank is
initialised to 0, not 1. -/
def Memory.fromCart (cart : Cartridge) : Option Memory := do
  let rbm_byte ← cart.read RBM_ADDRESS
  let rbm ←
    (match rbm_byte with
     | 0 => some RomBankMode.No
     | 1 | 2 | 3 => some RomBankMode.MBC1
     | 5 | 6 => some RomBankMode.MBC2
     | _ => none : Option RomBankMode)
  some (Memory.init
    { rom := fun _ => 0
      cart := cart
      rom_bank_mode := rbm
      current_rom_bank := 0
      ram_banks := fun _ => 0
      current_ram_bank := 0
      enable_ram := false
      enable_rom := false })

/-- Memory::handle_ram_bank_enable. -/
def Memory.handle_ram_bank_enable (m : Memory) (address data : Nat) : Memory :=
  if (match m.rom_bank_mode with
      | RomBankMode.MBC2 => address &&& 0b00010000 != 0
      | _ => false) then m
  else
    let lower_nibble := data &&& 0xF
    if lower_nibble = 0xA then { m with enable_ram := true }
    else if lower_nibble = 0x0 then { m with enable_ram := false }
    else m

/-- Memory::handle_change_lo_rom_bank.  In MBC2 mode the bank is first set
from the low nibble plus one, and then (there is no early return in the
source) the common low-five-bits logic still runs. -/
def Memory.handle_change_lo_rom_bank (m : Memory) (data : Nat) : Memory :=
  let m :=
    match m.rom_bank_mode with
    | RomBankMode.MBC2 => { m with current_rom_bank := (data &&& 0xF) + 1 }
    | _ => m
  let lower_five := data &&& 0b00011111
  let bank := (m.current_rom_bank &&& 0b11100000) ||| lower_five
  let bank := if bank = 0 then bank + 1 else bank
  { m with current_rom_bank := bank }

/-- Memory::handle_change_hi_rom_bank. -/
def Memory.handle_change_hi_rom_bank (m : Memory) (data : Nat) : Memory :=
  let bank := (m.current_rom_bank &&& 0b00011111) ||| (data &&& 0b11100000)
  let bank := if bank = 0 then bank + 1 else bank
  { m with current_rom_bank := bank }

/-- Memory::handle_change_ram_bank. -/
def Memory.handle_change_ram_bank (m : Memory) (data : Nat) : Memory :=
  { m with current_ram_bank := data &&& 0x3 }

/-- Memory::handle_change_rom_ram_mode. -/
def Memory.handle_change_rom_ram_mode (m : Memory) (data : Nat) : Memory :=
  let enable := (data &&& 0b00000001) = 0
  let m := { m with enable_rom := enable }
  if enable then { m with current_ram_bank := 0 } else m

/-- Memory::handle_banking. -/
def Memory.handle_banking (m : Memory) (address data : Nat) : Memory :=
  if address ≤ 0x1FFF then
    match m.rom_bank_mode with
    | RomBankMode.MBC1 | RomBankMode.MBC2 => m.handle_ram_bank_enable address data
    | _ => m
  else if address ≤ 0x3FFF then
    match m.rom_bank_mode with
    | RomBankMode.MBC1 | RomBankMode.MBC2 => m.handle_change_lo_rom_bank data
    | _ => m
  else if address ≤ 0x5FFF then
    match m.rom_bank_mode with
    | RomBankMode.MBC1 =>
      if m.enable_rom then m.handle_change_hi_rom_bank data
      else m.handle_change_ram_bank data
    | _ => m
  else if address ≤ 0x7FFF then
    match m.rom_bank_mode with
    | RomBankMode.MBC1 => m.handle_change_rom_ram_mode data
    | _ => m
  else m

/-- Memory::write.  The out-of-range arm aborts the process (none); the
echo-RAM arm stores the byte and recursively writes it 0x2000 addresses
back; the ram_banks store models the bounds check of Rust array indexing. -/
def Memory.write (m : Memory) (address data : Nat) : Option Memory :=
  if MEMORY_SIZE ≤ address then none
  else if address ≤ 0x7FFF then some (m.handle_banking address data)
  else if 0xA000 ≤ address ∧ address ≤ 0xBFFF then
    if m.enable_ram then
      let translated := (address - 0xA000) + m.current_ram_bank * RAM_BANK_SIZE
      if translated < MAX_RAMBANK * RAM_BANK_SIZE then
        some { m with ram_banks := upd m.ram_banks translated data }
      else none
    else some m
  else if h : 0xE000 ≤ address ∧ address ≤ 0xFDFF then
    Memory.write { m with rom := upd m.rom address data } (address - 0x2000) data
  else if 0xFEA0 ≤ address ∧ address ≤ 0xFEFE then some m
  else if address = 0xFF04 then some { m with rom := upd m.rom address 0 }
  else if address = 0xFF44 then some { m with rom := upd m.rom address 0 }
  else some { m with rom := upd m.rom address data }
termination_by address
decreasing_by omega

/-- Memory::write_force: stores directly into the 64 KiB array; the Rust
array indexing aborts when the address is out of range (none). -/
def Memory.write_force (m : Memory) (address data : Nat) : Option Memory :=
  if address < MEMORY_SIZE then some { m with rom := upd m.rom address data }
  else none

/-- Memory::read_force. -/
def Memory.read_force (m : Memory) (address : Nat) : Option Nat :=
  if address < MEMORY_SIZE then some (m.rom address) else none

/-- Memory::read.  The out-of-range arm aborts (none); the switchable ROM
bank region is served by the cartridge at the bank-translated offset; the
external RAM read models the bounds check of Rust array indexing. -/
def Memory.read (m : Memory) (address : Nat) : Option Nat :=
  if MEMORY_SIZE ≤ address then none
  else if 0x4000 ≤ address ∧ address ≤ 0x7FFF then
    m.cart.read ((address - 0x4000) + m.current_rom_bank * ROM_BANK_SIZE)
  else if 0xA000 ≤ address ∧ address ≤ 0xBFFF then
    let translated := (address - 0xA000) + m.current_ram_bank * RAM_BANK_SIZE
    if translated < MAX_RAMBANK * RAM_BANK_SIZE then some (m.ram_banks translated)
    else none
  else some (m.rom address)

/-! ## Cpu (src/emulator/cpu/mod.rs)

The registers module referenced by the Cpu struct is not present under src/,
and no claim depends on it, so only the fields the claims use (pc, sp) are
modelled. -/

/-- The Cpu struct from cpu/mod.rs (registers elided, see above). -/
structure Cpu where
  pc : Nat
  sp : Nat

/-- Cpu::new. -/
def Cpu.new : Cpu := { pc := 0, sp := 0xFFFE }

/-- Cpu::execute is a stub in the source: its whole body is a return of 0
T-states, and it does not touch the memory it borrows. -/
def Cpu.execute (_c : Cpu) (_memory : Memory) : Nat := 0

/-! ## Emulator (src/emulator/mod.rs) -/

/-- TIMER_ADDRESS constant from mod.rs (TIMA). -/
def TIMER_ADDRESS : Nat := 0xFF05

/-- TIMER_MODULATOR constant from mod.rs (TMA). -/
def TIMER_MODULATOR : Nat := 0xFF06

/-- TIMER_CONTROLLER constant from mod.rs (TAC). -/
def TIMER_CONTROLLER : Nat := 0xFF07

/-- DIVIDER_REGISTER constant from mod.rs (DIV). -/
def DIVIDER_REGISTER : Nat := 0xFF04

/-- INTERRUPT_REQUEST constant from mod.rs (IF). -/
def INTERRUPT_REQUEST : Nat := 0xFF0F

/-- INTERRUPT_ENABLED constant from mod.rs (IE). -/
def INTERRUPT_ENABLED : Nat := 0xFFFF

/-- SCANLINE_ADDRESS constant from mod.rs (LY). -/
def SCANLINE_ADDRESS : Nat := 0xFF44

/-- LCD_CONTROL_ADDRESS constant from mod.rs (LCDC). -/
def LCD_CONTROL_ADDRESS : Nat := 0xFF40

/-- DMA_ADDRESS constant from mod.rs. -/
def DMA_ADDRESS : Nat := 0xFF46

/-- PALETTE_47_ADDRESS constant from mod.rs (BGP). -/
def PALETTE_47_ADDRESS : Nat := 0xFF47

/-- PALETTE_48_ADDRESS constant from mod.rs (OBP0). -/
def PALETTE_48_ADDRESS : Nat := 0xFF48

/-- PALETTE_49_ADDRESS constant from mod.rs (OBP1). -/
def PALETTE_49_ADDRESS : Nat := 0xFF49

/-- SPRITE_ATTRIBUTE_TABLE constant from mod.rs (OAM base). -/
def SPRITE_ATTRIBUTE_TABLE : Nat := 0xFE00

/-- SPRITE_DATA_ADDRESS constant from mod.rs. -/
def SPRITE_DATA_ADDRESS : Nat := 0x8000

/-- KEY_ADDRESS constant from mod.rs (joypad register). -/
def KEY_ADDRESS : Nat := 0xFF00

/-- The Interrupt enum from mod.rs.  It has exactly four sources: there is
no Serial interrupt and no 0x58 vector in the source. -/
inductive Interrupt where
  | VBlank
  | LCD
  | Timer
  | Joypad
deriving DecidableEq

/-- The u8 discriminant of each Interrupt enum value in the source. -/
def Interrupt.mask : Interrupt → Nat
  | Interrupt.VBlank => 0b00000001
  | Interrupt.LCD    => 0b00000010
  | Interrupt.Timer  => 0b00000100
  | Interrupt.Joypad => 0b00010000

/-- ALL_INTERRUPTS constant from mod.rs. -/
def ALL_INTERRUPTS : List Interrupt :=
  [Interrupt.VBlank, Interrupt.LCD, Interrupt.Timer, Interrupt.Joypad]

/-- The Color enum from mod.rs. -/
inductive Color where
  | White
  | LightGrey
  | DarkGrey
  | Black
deriving DecidableEq

/-- Color::rgb. -/
def Color.rgb : Color → Nat × Nat × Nat
  | Color.White => (0xFF, 0xFF, 0xFF)
  | Color.LightGrey => (0xCC, 0xCC, 0xCC)
  | Color.DarkGrey => (0x77, 0x77, 0x77)
  | Color.Black => (0x00, 0x00, 0x00)

/-- The Inputs bitflags from mod.rs, as the eight named buttons. -/
inductive Inputs where
  | RIGHT
  | LEFT
  | UP
  | DOWN
  | A
  | B
  | SELECT
  | START
deriving DecidableEq

/-- The u8 bit of each Inputs flag in the source. -/
def Inputs.mask : Inputs → Nat
  | Inputs.RIGHT  => 0b00000001
  | Inputs.LEFT   => 0b00000010
  | Inputs.UP     => 0b00000100
  | Inputs.DOWN   => 0b00001000
  | Inputs.A      => 0b00010000
  | Inputs.B      => 0b00100000
  | Inputs.SELECT => 0b01000000
  | Inputs.START  => 0b10000000

/-- Inputs::bit_location (the warn-and-7 arm only fires for non-singular
flag sets, which cannot arise for these eight constructors). -/
def Inputs.bit_location : Inputs → Nat
  | Inputs.RIGHT | Inputs.A => 0
  | Inputs.LEFT | Inputs.B => 1
  | Inputs.UP | Inputs.SELECT => 2
  | Inputs.DOWN | Inputs.START => 3

/-- Inputs::select_location (same remark as for bit_location). -/
def Inputs.select_location : Inputs → Nat
  | Inputs.RIGHT | Inputs.LEFT | Inputs.UP | Inputs.DOWN => 4
  | Inputs.A | Inputs.B | Inputs.SELECT | Inputs.START => 5

/-- ALL_INPUTS constant from mod.rs. -/
def ALL_INPUTS : List Inputs :=
  [Inputs.RIGHT, Inputs.LEFT, Inputs.UP, Inputs.DOWN,
   Inputs.A, Inputs.B, Inputs.SELECT, Inputs.START]

/-- The Emulator struct from mod.rs.  The 160x144 RGB screen buffer is
modelled as a function of x, y and colour channel; pressed_inputs is the
u8 bitflags value. -/
structure Emulator where
  cpu : Cpu
  memory : Memory
  timer_counter : Int
  divider_counter : Int
  interrupt_master : Bool
  scanline_count : Nat
  screen_buffer : Nat → Nat → Nat → Nat
  pressed_inputs : Nat

/-- Emulator::joypad_state.  The bitflags contains test is
(pressed & mask) == mask. -/
def Emulator.joypad_state (e : Emulator) : Option Nat := do
  let old_state ← e.memory.read KEY_ADDRESS
  let active_select := if tbit old_state 4 then 5 else 4
  let new_state := ubit 0xFF active_select
  some (ALL_INPUTS.foldl
    (fun new_state input =>
      if input.select_location = active_select ∧
         (e.pressed_inputs &&& input.mask) = input.mask then
        ubit new_state input.bit_location
      else new_state)
    new_state)

/-- Emulator::read_memory: 0xFF00 is served by joypad_state, everything
else by Memory::read. -/
def Emulator.read_memory (e : Emulator) (address : Nat) : Option Nat :=
  if address = 0xFF00 then e.joypad_state
  else e.memory.read address

/-- Emulator::get_clock_freq. -/
def Emulator.get_clock_freq (e : Emulator) : Option Nat :=
  (e.read_memory TIMER_CONTROLLER).map (· &&& 0b00000011)

/-- Emulator::set_clock_freq; the wildcard arm of the source match is an
unreachable-abort, modelled as none. -/
def Emulator.set_clock_freq (e : Emulator) : Option Emulator := do
  let freq ← e.get_clock_freq
  match freq with
  | 0 => some { e with timer_counter := 1024 }
  | 1 => some { e with timer_counter := 16 }
  | 2 => some { e with timer_counter := 64 }
  | 3 => some { e with timer_counter := 256 }
  | _ => none

/-- Emulator::clock_enabled. -/
def Emulator.clock_enabled (e : Emulator) : Option Bool :=
  (e.read_memory TIMER_CONTROLLER).map (fun b => (b &&& 0b00000100) != 0)

mutual

/-- Emulator::write_memory: TAC writes go through the clock-frequency
check, 0xFF46 triggers the DMA copy, everything else goes to Memory::write. -/
def Emulator.write_memory (e : Emulator) (address data : Nat) : Option Emulator :=
  if address = TIMER_CONTROLLER then do
    let current_freq ← e.get_clock_freq
    let m ← e.memory.write address data
    let e := { e with memory := m }
    let new_freq ← e.get_clock_freq
    if current_freq ≠ new_freq then e.set_clock_freq else some e
  else if address = DMA_ADDRESS then
    e.dma_transfer data 0
  else
    (e.memory.write address data).map fun m => { e with memory := m }
termination_by if address = DMA_ADDRESS then 2 * 0xA0 + 3 else 0

/-- Emulator::dma_transfer, with the loop counter i of the source's
for-loop over 0..0xA0 made an explicit argument (the call in write_memory
starts it at 0). -/
def Emulator.dma_transfer (e : Emulator) (data : Nat) (i : Nat) : Option Emulator :=
  if h : i < 0xA0 then do
    let b ← e.read_memory ((data <<< 8) + i)
    let e ← e.write_memory (0xFE00 + i) b
    e.dma_transfer data (i + 1)
  else some e
termination_by 2 * (0xA0 - i) + 1
decreasing_by
  all_goals try simp only [DMA_ADDRESS]
  all_goals first
    | (split <;> omega)
    | omega

end

/-- Emulator::request_interrupt. -/
def Emulator.request_interrupt (e : Emulator) (interrupt : Interrupt) : Option Emulator := do
  let req ← e.read_memory INTERRUPT_REQUEST
  e.write_memory INTERRUPT_REQUEST (req ||| interrupt.mask)

/-- Emulator::service_interrupt.  The u8 complement of the interrupt bit
is xor with 0xFF; push_stack16 has an empty body in the source, so the
push of pc is a no-op; pc is then set to the vector of the interrupt. -/
def Emulator.service_interrupt (e : Emulator) (interrupt : Interrupt) : Option Emulator := do
  let e := { e with interrupt_master := false }
  let req ← e.read_memory INTERRUPT_REQUEST
  let req_unset := req &&& (interrupt.mask ^^^ 0xFF)
  let e ← e.write_memory INTERRUPT_REQUEST req_unset
  let vector :=
    match interrupt with
    | Interrupt.VBlank => 0x40
    | Interrupt.LCD => 0x48
    | Interrupt.Timer => 0x50
    | Interrupt.Joypad => 0x60
  some { e with cpu := { e.cpu with pc := vector } }

/-- Emulator::handle_interrupts: req and enabled are read once, then each
interrupt whose condition (req | mask) != 0 && (enabled | mask) != 0 holds
is serviced in priority order. -/
def Emulator.handle_interrupts (e : Emulator) : Option Emulator :=
  if e.interrupt_master then do
    let req ← e.read_memory INTERRUPT_REQUEST
    let enabled ← e.read_memory INTERRUPT_ENABLED
    ALL_INTERRUPTS.foldlM
      (fun e interrupt =>
        if (req ||| interrupt.mask) ≠ 0 ∧ (enabled ||| interrupt.mask) ≠ 0 then
          e.service_interrupt interrupt
        else some e)
      e
  else some e

/-- Emulator::handle_divider_register: accumulates cycles and, once 255 or
more have accumulated, reads the DIV byte back and force-writes the very
same byte. -/
def Emulator.handle_divider_register (e : Emulator) (cycles : Nat) : Option Emulator :=
  let e := { e with divider_counter := e.divider_counter + cycles }
  if 255 ≤ e.divider_counter then do
    let e := { e with divider_counter := 0 }
    let byte ← e.read_memory DIVIDER_REGISTER
    (e.memory.write_force DIVIDER_REGISTER byte).map fun m => { e with memory := m }
  else some e

/-- Emulator::update_timers.  In the overflow arm (TIMA = 0xFF) the source
writes 0xFF back to TIMA and raises the Timer interrupt; in the other arm
value + 1 cannot wrap since value is not 0xFF. -/
def Emulator.update_timers (e : Emulator) (cycles : Nat) : Option Emulator := do
  let e ← e.handle_divider_register cycles
  let enabled ← e.clock_enabled
  if enabled then
    let e := { e with timer_counter := e.timer_counter - cycles }
    if e.timer_counter ≤ 0 then do
      let e ← e.set_clock_freq
      let value ← e.read_memory TIMER_ADDRESS
      if value = 0xFF then do
        let e ← e.write_memory TIMER_ADDRESS 0xFF
        e.request_interrupt Interrupt.Timer
      else
        e.write_memory TIMER_ADDRESS (value + 1)
    else some e
  else some e

/-- Emulator::input_down.  was_unset is (pressed & input) != empty, i.e.
it is true when the button was ALREADY pressed; the interrupt is raised
only when was_unset holds and bit select_location of the stored 0xFF00
byte is SET. -/
def Emulator.input_down (e : Emulator) (input : Inputs) : Option Emulator := do
  let was_unset := (e.pressed_inputs &&& input.mask) != 0
  let e := { e with pressed_inputs := e.pressed_inputs ||| input.mask }
  let keys ← e.memory.read KEY_ADDRESS
  let need_interrupt := was_unset && tbit keys input.select_location
  if need_interrupt then e.request_interrupt Interrupt.Joypad else some e

/-- Emulator::input_up. -/
def Emulator.input_up (e : Emulator) (input : Inputs) : Emulator :=
  { e with pressed_inputs := e.pressed_inputs &&& (input.mask ^^^ 0xFF) }

/-- One iteration of the Emulator::update loop body:
elapsed_cycles += self.cpu.execute(&mut self.memory). -/
def Emulator.update_iterate (e : Emulator) (elapsed : Nat) : Nat :=
  elapsed + e.cpu.execute e.memory

/-- elapsed_cycles of the Emulator::update loop after n iterations,
starting from its initial value 0. -/
def Emulator.update_elapsed (e : Emulator) : Nat → Nat
  | 0 => 0
  | n + 1 => e.update_iterate (e.update_elapsed n)

/-- Emulator::get_color: the arm for an unknown colour number aborts, and
so does the unreachable arm after the palette lookup (both none). -/
def Emulator.get_color (e : Emulator) (color_num address : Nat) : Option Color := do
  let palette ← e.read_memory address
  let hl ←
    (match color_num with
     | 0 => some (1, 0)
     | 1 => some (3, 2)
     | 2 => some (5, 4)
     | 3 => some (7, 6)
     | _ => none : Option (Nat × Nat))
  let color := (gbit palette hl.1 <<< 1) ||| gbit palette hl.2
  (match color with
   | 0 => some Color.White
   | 1 => some Color.LightGrey
   | 2 => some Color.DarkGrey
   | 3 => some Color.Black
   | _ => none : Option Color)

/-- Store one RGB pixel of the screen buffer (indexed x, y, channel),
modelling the three per-channel assignments of the source. -/
def updScreen (sb : Nat → Nat → Nat → Nat) (x y : Nat) (rgb : Nat × Nat × Nat) :
    Nat → Nat → Nat → Nat :=
  fun x' y' c =>
    if x' = x ∧ y' = y then
      if c = 0 then rgb.1 else if c = 1 then rgb.2.1 else rgb.2.2
    else sb x' y' c

/-- The per-sprite body of Emulator::render_sprites: one iteration of the
source's loop over the 40 OAM entries, with size_y and the scanline (read
before the loop) passed in.  The signed i16 intermediates line, color_bit
and pixel are modelled as Int and converted with toNat where the source
casts to usize; the guard scanline < 0 of the source is omitted since
scanline is a u8; the inner per-pixel loop iterates the Rust range 7..0,
which is empty.  The unused size_x = 8 binding of the source is elided. -/
def Emulator.render_sprites_body (size_y scanline : Nat) (e : Emulator) (sprite : Nat) :
    Option Emulator := do
  let base_address := SPRITE_ATTRIBUTE_TABLE + sprite * 4
  let pos_y ← e.read_memory base_address
  let pos_x ← e.read_memory (base_address + 1)
  let location ← e.read_memory (base_address + 2)
  let attributes ← e.read_memory (base_address + 3)
  let flip_y := tbit attributes 6
  let flip_x := tbit attributes 5
  if pos_y ≤ scanline ∧ scanline < pos_y + size_y then do
    let sprite_line := scanline - pos_y
    let line : Int :=
      if flip_y then 2 * (-((sprite_line : Int) - (size_y : Int)))
      else 2 * (sprite_line : Int)
    let address := SPRITE_DATA_ADDRESS + location * 16 + line.toNat
    let data1 ← e.read_memory address
    let data2 ← e.read_memory (address + 1)
    (rustRange 7 0).foldlM
      (fun e tile_pixel => do
        let color_bit : Int :=
          if flip_x then -((tile_pixel : Int) - 7) else (tile_pixel : Int)
        let color_num := (gbit data2 color_bit.toNat <<< 1) ||| gbit data1 color_bit.toNat
        let color_address :=
          if tbit attributes 4 then PALETTE_49_ADDRESS else PALETTE_48_ADDRESS
        let color ← e.get_color color_num color_address
        let transparent := match color with | Color.White => true | _ => false
        if transparent then some e
        else
          let pixel : Int := 7 + (pos_x : Int) - (tile_pixel : Int)
          if 143 < scanline then some e
          else some { e with
            screen_buffer := updScreen e.screen_buffer pixel.toNat scanline color.rgb })
      e
  else some e

/-- Emulator::render_sprites: reads LCDC and LY, then iterates the sprite
body over the Rust range 0..40. -/
def Emulator.render_sprites (e : Emulator) : Option Emulator := do
  let lcd_control ← e.read_memory LCD_CONTROL_ADDRESS
  let double_height := tbit lcd_control 2
  let size_y := if double_height then 16 else 8
  let scanline ← e.read_memory SCANLINE_ADDRESS
  (rustRange 0 40).foldlM (Emulator.render_sprites_body size_y scanline) e

/-! ## Concrete test states -/

/-- The all-zero cartridge buffer (empty image, zero padding; MBC type
byte 0x00, i.e. no MBC). -/
def cartZero : Cartridge := Cartridge.fromImage []

/-- A loaded cartridge buffer with byte 0x11 at offset 0 and byte 0x22 at
offset 0x4000 (the first byte of ROM bank 1); MBC type byte 0x00. -/
def cartA : Cartridge :=
  ⟨fun a => if a = 0 then 0x11 else if a = 0x4000 then 0x22 else 0⟩

/-- A loaded cartridge buffer whose MBC type byte at 0x147 is 0x04, a
value outside the supported set. -/
def cart4 : Cartridge := ⟨fun a => if a = 0x147 then 0x04 else 0⟩

/-- A loaded cartridge buffer whose MBC type byte at 0x147 is 0x0B. -/
def cartB : Cartridge := ⟨fun a => if a = 0x147 then 0x0B else 0⟩

/-- The Memory value produced by Memory::from_file for the all-zero
cartridge, written out as a plain value (see memZ_fromCart). -/
def memZ : Memory :=
  Memory.init
    { rom := fun _ => 0
      cart := cartZero
      rom_bank_mode := RomBankMode.No
      current_rom_bank := 0
      ram_banks := fun _ => 0
      current_ram_bank := 0
      enable_ram := false
      enable_rom := false }

/-- Sanity: memZ is exactly the state Memory::from_file constructs for the
all-zero cartridge. -/
theorem memZ_fromCart : Memory.fromCart cartZero = some memZ := rfl

/-- A concrete emulator over memory m with the interrupt master flag and
pressed-inputs bitmask given; the other fields are fixed as in the
scenarios of the claims (pc 0x1234, timer_counter 16, divider_counter 0). -/
def mkEmulator (m : Memory) (master : Bool) (pressed : Nat) : Emulator :=
  { cpu := { pc := 0x1234, sp := 0xFFFE }
    memory := m
    timer_counter := 16
    divider_counter := 0
    interrupt_master := master
    scanline_count := 0
    screen_buffer := fun _ _ _ => 0
    pressed_inputs := pressed }

/-! ## Claims -/

/-- C3: the claim says Emulator::update runs one frame to completion with
exactly 70,224 T-states.  In the source, Cpu::execute is a stub returning
0 T-states, so elapsed_cycles stays 0 after any number of loop iterations
and never reaches the loop bound, which is moreover written as 69,905, not
70,224: the loop never terminates. -/
theorem c3_update_never_reaches_frame_bound (e : Emulator) (n : Nat) :
    e.update_elapsed n = 0 ∧ e.update_elapsed n < 69905 := by
  have h : e.update_elapsed n = 0 := by
    induction n with
    | zero => rfl
    | succ n ih =>
      simp [Emulator.update_elapsed, Emulator.update_iterate, Cpu.execute, ih]
  exact ⟨h, by omega⟩

/-- C4: the claim says current_rom_bank is at least 1 in every reachable
Memory state, so 0x4000-0x7FFF never aliases ROM bank 0.  In the source,
Memory::from_file initialises current_rom_bank to 0, and in that state a
read from 0x4000 returns cartridge byte 0 (bank 0), not cartridge byte
0x4000 (bank 1). -/
theorem c4_initial_rom_bank_zero :
    (Memory.fromCart cartA).map Memory.current_rom_bank = some 0 ∧
    ((Memory.fromCart cartA).bind fun m => m.read 0x4000) = some 0x11 := by
  exact ⟨rfl, rfl⟩

/-- C6 counterexample: for the three-byte image [1, 2, 3], Cartridge::read
at offset 3 (at the image length) returns 0, not the claimed 0xFF, and at
offset 0x200000 it aborts the process (modelled none) instead of
returning. -/
theorem c6_read_beyond_image :
    (Cartridge.fromImage [1, 2, 3]).read 3 = some 0 ∧
    (Cartridge.fromImage [1, 2, 3]).read 0x200000 = none := by
  exact ⟨rfl, rfl⟩

/-- C6 amended: Cartridge::read returns normally exactly below 0x200000:
inside the loaded image it returns the stored image byte, from the image
length up to 0x200000 it returns the zero padding (0x00, not 0xFF), and at
or beyond 0x200000 it aborts. -/
theorem c6_read_bounds (image : List Nat) (off : Nat) :
    (∀ h : off < image.length, off < 0x200000 →
      (Cartridge.fromImage image).read off = some (image.get ⟨off, h⟩)) ∧
    (image.length ≤ off → off < 0x200000 →
      (Cartridge.fromImage image).read off = some 0) ∧
    (0x200000 ≤ off → (Cartridge.fromImage image).read off = none) := by
  refine ⟨fun h hlt => ?_, fun hl hlt => ?_, fun h => ?_⟩
  · simp [Cartridge.read, Cartridge.fromImage, CARTRIDGE_SIZE, Nat.not_le.mpr hlt,
      List.getD_eq_getElem?_getD, List.getElem?_eq_getElem h]
  · simp [Cartridge.read, Cartridge.fromImage, CARTRIDGE_SIZE, Nat.not_le.mpr hlt,
      List.getD_eq_getElem?_getD, List.getElem?_eq_none hl]
  · simp [Cartridge.read, CARTRIDGE_SIZE, h]

/-- C6 witness: the amended bounds applied to the image [1, 2, 3] at
offset 1 (inside the image). -/
theorem c6_read_bounds_witness :
    (Cartridge.fromImage [1, 2, 3]).read 1 = some 2 := by
  have h := (c6_read_bounds [1, 2, 3] 1).1 (by decide) (by decide)
  simpa using h

/-- C7 counterexample: for the cartridge whose MBC type byte is 0x04, the
construction aborts the process (the wildcard arm of the match on the byte
at 0x147, modelled none): no LoadError value is returned to the caller. -/
theorem c7_unknown_mbc_aborts : Memory.fromCart cart4 = none := rfl

/-- C7 amended: every cartridge whose byte at 0x147 lies outside
{0x00, 0x01, 0x02, 0x03, 0x05, 0x06} is rejected — not silently mapped —
but by aborting the process rather than by returning an UnsupportedMBC
error value. -/
theorem c7_unknown_mbc_rejected (c : Cartridge)
    (h0 : c.data 0x147 ≠ 0) (h1 : c.data 0x147 ≠ 1) (h2 : c.data 0x147 ≠ 2)
    (h3 : c.data 0x147 ≠ 3) (h5 : c.data 0x147 ≠ 5) (h6 : c.data 0x147 ≠ 6) :
    Memory.fromCart c = none := by
  unfold Memory.fromCart
  have hread : c.read RBM_ADDRESS = some (c.data 0x147) := by
    simp [Cartridge.read, RBM_ADDRESS, CARTRIDGE_SIZE]
  rw [hread]
  rcases hn : c.data 0x147 with _ | _ | _ | _ | _ | _ | _ | n <;> simp_all

/-- C7 witness: the rejection applied to the cartridge with MBC type byte
0x0B. -/
theorem c7_unknown_mbc_rejected_witness : Memory.fromCart cartB = none :=
  c7_unknown_mbc_rejected cartB (by decide) (by decide) (by decide) (by decide)
    (by decide) (by decide)

/-- C8: the claim says DIV increases by 1 (mod 256) for every 256 T-states
when the guest does not write 0xFF04.  In the source,
Emulator::handle_divider_register reads the DIV byte and force-writes the
very same byte back, so the stored DIV value never changes no matter how
many cycles are fed. -/
theorem c8_divider_register_never_increments (e : Emulator) (cycles : Nat) :
    (e.handle_divider_register cycles).map (fun x => x.memory.rom 0xFF04)
      = some (e.memory.rom 0xFF04) := by
  unfold Emulator.handle_divider_register
  dsimp only
  split
  · simp [Emulator.read_memory, Memory.read, Memory.write_force, upd,
      DIVIDER_REGISTER, MEMORY_SIZE]
  · simp

/-- C5 counterexample: from the reset state, writing 0x42 to WRAM address
0xC123 (which the write dispatch stores only at 0xC123) leaves the byte
stored at echo address 0xE123 at 0, so read(0xE123) returns 0, not the
claimed 0x42, while read(0xC123) returns 0x42. -/
theorem c5_wram_write_not_mirrored :
    ((memZ.write 0xC123 0x42).bind fun m => m.read 0xE123) = some 0 ∧
    ((memZ.write 0xC123 0x42).bind fun m => m.read 0xC123) = some 0x42 := by
  have hw : memZ.write 0xC123 0x42
      = some { memZ with rom := upd memZ.rom 0xC123 0x42 } := by
    rw [Memory.write.eq_def]
    norm_num [MEMORY_SIZE]
  rw [hw]
  constructor <;> rfl

/-- C5 amended: the echo aliasing holds only for writes made through the
echo region itself: for every memory state and every address A with
0xE000 <= A <= 0xFDFF, after write(A, b) both read(A) and read(A - 0x2000)
return b (a write made directly to A - 0x2000 in WRAM is not reflected at
A, see the counterexample). -/
theorem c5_echo_write_mirrors (m : Memory) (A b : Nat)
    (h1 : 0xE000 ≤ A) (h2 : A ≤ 0xFDFF) :
    ((m.write A b).bind fun m2 => m2.read A) = some b ∧
    ((m.write A b).bind fun m2 => m2.read (A - 0x2000)) = some b := by
  have e1 : m.write A b
      = Memory.write { m with rom := upd m.rom A b } (A - 0x2000) b := by
    rw [Memory.write.eq_def]
    rw [if_neg (by simp only [MEMORY_SIZE]; omega),
        if_neg (by omega),
        if_neg (by omega),
        dif_pos ⟨h1, h2⟩]
  have e2 : Memory.write { m with rom := upd m.rom A b } (A - 0x2000) b
      = some { m with rom := upd (upd m.rom A b) (A - 0x2000) b } := by
    rw [Memory.write.eq_def]
    rw [if_neg (by simp only [MEMORY_SIZE]; omega),
        if_neg (by omega),
        if_neg (by omega),
        dif_neg (by omega),
        if_neg (by omega),
        if_neg (by omega),
        if_neg (by omega)]
  have r1 : Memory.read { m with rom := upd (upd m.rom A b) (A - 0x2000) b } A
      = some b := by
    unfold Memory.read
    rw [if_neg (by simp only [MEMORY_SIZE]; omega),
        if_neg (by omega),
        if_neg (by omega)]
    unfold upd
    dsimp only
    rw [if_neg (by omega), if_pos rfl]
  have r2 : Memory.read { m with rom := upd (upd m.rom A b) (A - 0x2000) b }
      (A - 0x2000) = some b := by
    unfold Memory.read
    rw [if_neg (by simp only [MEMORY_SIZE]; omega),
        if_neg (by omega),
        if_neg (by omega)]
    unfold upd
    dsimp only
    rw [if_pos rfl]
  constructor
  · rw [e1, e2, Option.some_bind, r1]
  · rw [e1, e2, Option.some_bind, r2]

/-- Evaluation helper: Memory::write on an I/O or HRAM address other than
the DIV and LY special cases stores the byte in the 64 KiB array. -/
theorem Memory.write_io (m : Memory) (address data : Nat)
    (h1 : 0xFF00 ≤ address) (h2 : address < 0x10000)
    (h3 : address ≠ 0xFF04) (h4 : address ≠ 0xFF44) :
    m.write address data = some { m with rom := upd m.rom address data } := by
  rw [Memory.write.eq_def]
  rw [if_neg (by simp only [MEMORY_SIZE]; omega),
      if_neg (by omega), if_neg (by omega), dif_neg (by omega),
      if_neg (by omega), if_neg h3, if_neg h4]

/-- Evaluation helper: Emulator::write_memory away from the TAC and DMA
special cases delegates to Memory::write. -/
theorem Emulator.write_memory_plain (e : Emulator) (address data : Nat)
    (h1 : address ≠ TIMER_CONTROLLER) (h2 : address ≠ DMA_ADDRESS) :
    e.write_memory address data
      = (e.memory.write address data).map fun m => { e with memory := m } := by
  rw [Emulator.write_memory.eq_def]
  rw [if_neg h1, if_neg h2]

/-- Evaluation helper: Emulator::write_memory on a plain I/O or HRAM
address stores the byte in the 64 KiB array. -/
theorem Emulator.write_memory_io (e : Emulator) (address data : Nat)
    (h1 : 0xFF00 ≤ address) (h2 : address < 0x10000)
    (h3 : address ≠ 0xFF04) (h4 : address ≠ 0xFF44)
    (h5 : address ≠ 0xFF07) (h6 : address ≠ 0xFF46) :
    e.write_memory address data
      = some { e with memory := { e.memory with rom := upd e.memory.rom address data } } := by
  rw [Emulator.write_memory_plain e address data
        (by simp only [TIMER_CONTROLLER]; omega)
        (by simp only [DMA_ADDRESS]; omega),
      Memory.write_io e.memory address data h1 h2 h3 h4]
  rfl

/-- C5 witness: the amended mirroring applied at echo address 0xE123 from
the reset state. -/
theorem c5_echo_write_mirrors_witness :
    ((memZ.write 0xE123 0x42).bind fun m2 => m2.read 0xE123) = some 0x42 ∧
    ((memZ.write 0xE123 0x42).bind fun m2 => m2.read 0xC123) = some 0x42 := by
  have h := c5_echo_write_mirrors memZ 0xE123 0x42 (by norm_num) (by norm_num)
  exact ⟨h.1, h.2⟩

/-- C1: the claim says interrupt dispatch services interrupt i if and only
if (IF & IE & bit_i) != 0.  The source tests (IF | bit) != 0 and
(IE | bit) != 0, which both hold for every interrupt bit regardless of IF
and IE: from a state with IF = 0 and IE = 0 and IME set, the dispatch
loop nevertheless services all four interrupts in turn, clearing IME and
leaving pc at the vector of the last one (Joypad, 0x60). -/
theorem c1_interrupt_dispatch_or_bug :
    (mkEmulator memZ true 0).memory.rom 0xFF0F = 0 ∧
    (mkEmulator memZ true 0).memory.rom 0xFFFF = 0 ∧
    ((mkEmulator memZ true 0).handle_interrupts).map
        (fun e => (e.cpu.pc, e.interrupt_master, e.memory.rom 0xFF0F))
      = some (0x60, false, 0) := by
  refine ⟨rfl, rfl, ?_⟩
  simp [Emulator.handle_interrupts, Emulator.read_memory, Emulator.service_interrupt,
    Emulator.write_memory_io, ALL_INTERRUPTS, Interrupt.mask, List.foldlM,
    Memory.read, Memory.init, INIT_VALUES, List.foldl, upd, mkEmulator, memZ,
    INTERRUPT_REQUEST, INTERRUPT_ENABLED, MEMORY_SIZE, ROM_BANK_SIZE, RAM_BANK_SIZE,
    MAX_RAMBANK, cartZero, Cartridge.fromImage]

/-- Memory for the timer-overflow scenario: the reset state with TAC = 0x05
(timer enabled, 16 T-state period), TIMA = 0xFF and TMA = 0xAB stored. -/
def memT : Memory :=
  { memZ with rom := upd (upd (upd memZ.rom 0xFF07 0x05) 0xFF05 0xFF) 0xFF06 0xAB }

/-- C2: the claim says that on TIMA overflow the value of TMA is stored
into TIMA and bit 2 of IF is set.  From the scenario state (TIMA = 0xFF,
TMA = 0xAB, timer enabled at the 16 T-state period, 16 T-states fed), the
source raises the Timer interrupt (IF bit 2) but writes 0xFF back into
TIMA instead of the TMA value 0xAB. -/
theorem c2_timer_overflow_writes_ff :
    memT.rom 0xFF05 = 0xFF ∧ memT.rom 0xFF06 = 0xAB ∧ memT.rom 0xFF07 = 0x05 ∧
    ((mkEmulator memT true 0).update_timers 16).map
        (fun e => (e.memory.rom 0xFF05, e.memory.rom 0xFF0F)) = some (0xFF, 0x04) := by
  refine ⟨rfl, rfl, rfl, ?_⟩
  simp [Emulator.update_timers, Emulator.handle_divider_register, Emulator.clock_enabled,
    Emulator.set_clock_freq, Emulator.get_clock_freq, Emulator.read_memory,
    Emulator.request_interrupt, Emulator.write_memory_io, Memory.read, Memory.write_force,
    Interrupt.mask, mkEmulator, memT, memZ, Memory.init, INIT_VALUES, List.foldl, upd,
    TIMER_ADDRESS, TIMER_CONTROLLER, TIMER_MODULATOR, DIVIDER_REGISTER, INTERRUPT_REQUEST,
    MEMORY_SIZE, ROM_BANK_SIZE, RAM_BANK_SIZE, MAX_RAMBANK, cartZero, Cartridge.fromImage]

/-- Memory for the joypad scenario: the reset state with 0x10 stored at
0xFF00: bit 4 set (directional row deselected) and bit 5 clear (action
row selected, a row being selected by writing its bit as 0). -/
def memJ : Memory := { memZ with rom := upd memZ.rom 0xFF00 0x10 }

/-- C9: the claim says a fresh press (button not in the pressed bitmask)
of a button in the currently selected row raises the Joypad interrupt.
From the scenario state (nothing pressed, action row selected at 0xFF00 by
its select bit written 0), pressing A sets the bit in pressed_inputs but
raises no interrupt (IF stays 0): the source's was_unset test is true only
when the button was ALREADY pressed, and its row test additionally checks
the select bit being SET rather than clear. -/
theorem c9_fresh_press_no_interrupt :
    ((mkEmulator memJ true 0).pressed_inputs &&& Inputs.A.mask) = 0 ∧
    tbit (memJ.rom 0xFF00) Inputs.A.select_location = false ∧
    ((mkEmulator memJ true 0).input_down Inputs.A).map
        (fun e => (e.pressed_inputs, e.memory.rom 0xFF0F)) = some (0x10, 0) := by
  exact ⟨rfl, rfl, rfl⟩

/-- The Rust range 7..0 iterated by the per-pixel sprite loop is empty. -/
theorem rustRange_seven_zero : rustRange 7 0 = [] := rfl

/-- Helper: a bind whose continuation either fixes b or aborts also either
fixes b or aborts. -/
theorem bind_fix {α β : Type} {x : Option α} {f : α → Option β} {b : β}
    (h : ∀ a, f a = some b ∨ f a = none) :
    (x.bind f) = some b ∨ (x.bind f) = none := by
  cases x with
  | none => exact Or.inr rfl
  | some a => simpa using h a

/-- Helper: a monadic fold whose step either returns its accumulator
unchanged or aborts can only return the initial accumulator. -/
theorem foldlM_option_fix {α β : Type} (f : β → α → Option β)
    (hf : ∀ b a, f b a = some b ∨ f b a = none) :
    ∀ (l : List α) (b b2 : β), l.foldlM f b = some b2 → b2 = b := by
  intro l
  induction l with
  | nil =>
    intro b b2 h
    simpa [List.foldlM] using h.symm
  | cons a l ih =>
    intro b b2 h
    rcases hf b a with h1 | h1 <;> simp [List.foldlM, h1] at h
    exact ih b b2 h

/-- Each iteration of the sprite loop either returns the emulator state
unchanged or aborts: all its screen writes sit inside the fold over the
empty range 7..0. -/
theorem render_sprites_body_fix (size_y scanline : Nat) (e : Emulator) (s : Nat) :
    Emulator.render_sprites_body size_y scanline e s = some e ∨
    Emulator.render_sprites_body size_y scanline e s = none := by
  unfold Emulator.render_sprites_body
  apply bind_fix; intro pos_y
  apply bind_fix; intro pos_x
  apply bind_fix; intro location
  apply bind_fix; intro attributes
  dsimp only
  split
  · apply bind_fix; intro d1
    apply bind_fix; intro d2
    exact Or.inl (by simp [rustRange_seven_zero])
  · exact Or.inl rfl

/-- C10: whenever Emulator::render_sprites returns, the screen buffer of
the result is exactly that of the input state: the per-pixel loop iterates
the empty Rust range 7..0 and so never writes a pixel. -/
theorem c10_render_sprites_screen_unchanged (e e2 : Emulator)
    (h : e.render_sprites = some e2) :
    e2.screen_buffer = e.screen_buffer := by
  unfold Emulator.render_sprites at h
  cases h0 : e.read_memory LCD_CONTROL_ADDRESS with
  | none => rw [h0] at h; simp at h
  | some lcd =>
    rw [h0] at h
    cases h1 : e.read_memory SCANLINE_ADDRESS with
    | none => rw [h1] at h; simp at h
    | some sl =>
      rw [h1] at h
      simp only [Option.some_bind] at h
      have := foldlM_option_fix _
        (render_sprites_body_fix (if tbit lcd 2 then 16 else 8) sl)
        (rustRange 0 40) e e2 h
      rw [this]

/-- C10 witness: on the concrete reset-state emulator, render_sprites
returns and the screen buffer is unchanged. -/
theorem c10_render_sprites_screen_unchanged_witness :
    ((mkEmulator memZ true 0).render_sprites).map (fun x => x.screen_buffer 0 0 0)
      = some ((mkEmulator memZ true 0).screen_buffer 0 0 0) := by
  have hsome : (mkEmulator memZ true 0).render_sprites
      = some (mkEmulator memZ true 0) := by rfl
  have h2 := c10_render_sprites_screen_unchanged
    (mkEmulator memZ true 0) (mkEmulator memZ true 0) hsome
  rw [hsome]
  exact congrArg some (congrFun (congrFun (congrFun h2 0) 0) 0)

end Coolboy
